import Mathlib

/-!
# picfit: the lilliput engine backend and the HTTP handlers

A shallow embedding of `engine/backend/lilliput.go` and of the `Upload` and
`Delete` handlers of `server/handlers/handlers.go`.

Calls that leave the repository (the lilliput library, the application
package, the binding package) are taken as parameters.  Every function of
the embedding returns the list of external calls it made, in order, next to
its Go return values, so that "is called" and "is not reached" are
statements about that list.
-/

namespace backend

/-- Go byte slices. -/
abbrev Bytes := List UInt8

/-- Go error values seen by the backend.  `MethodNotImplementedError` is the
package-level error value of package `backend`; `lib` is an error produced by
the lilliput library; `withStack` is the wrapper built by `errors.WithStack`,
which keeps the wrapped error as its cause. -/
inductive GoError where
  | MethodNotImplementedError
  | lib (msg : String)
  | withStack (cause : GoError)
deriving DecidableEq, Repr

/-- The error wrapped by `errors.WithStack`, nil for an error that wraps nothing. -/
def GoError.Unwrap : GoError → Option GoError
  | .withStack cause => some cause
  | _ => none

/-- The constants of `lilliput.ImageOpsSizeMethod`. -/
inductive ImageOpsSizeMethod where
  | ImageOpsNoResize
  | ImageOpsFit
  | ImageOpsResize
deriving DecidableEq, Repr

/-- The fields of `lilliput.ImageOptions` that the backend sets; the others keep
their Go zero value in every literal of the source. -/
structure ImageOptions where
  FileType : String
  Width : Int
  Height : Int
  ResizeMethod : ImageOpsSizeMethod
deriving DecidableEq, Repr

/-- The value behind a `*lilliput.ImageHeader`. -/
structure ImageHeader where
  width : Int
  height : Int
deriving DecidableEq, Repr

/-- The fields of `backend.Options` read by the lilliput engine. -/
structure Options where
  Width : Int
  Height : Int
deriving DecidableEq, Repr

/-- The fields of `imagefile.ImageFile` read by the lilliput engine. -/
structure ImageFile where
  Source : Bytes
  Filepath : String
deriving DecidableEq, Repr

/-- The engine record of `lilliput.go`. -/
structure LilliputEngine where
  MaxBufferSize : Int
deriving DecidableEq, Repr

/-- The functions the engine calls outside of `lilliput.go`, with their Go result
tuples: a nilable value next to a nilable error.  `δ` is the decoder type. -/
structure Extern (δ : Type) where
  FilenameExt : ImageFile → String
  NewDecoder : Bytes → Option δ × Option GoError
  Header : δ → Option ImageHeader × Option GoError
  Transform : Int → δ → ImageOptions → Nat → Option Bytes × Option GoError

/-- One external call, with its arguments. -/
inductive Event (δ : Type) where
  | FilenameExt (img : ImageFile)
  | NewDecoder (src : Bytes)
  | Header (d : δ)
  | NewImageOps (maxBufferSize : Int)
  | Transform (maxBufferSize : Int) (d : δ) (opts : ImageOptions) (dstLen : Nat)
  | OpsClose
  | DecoderClose (d : δ)
deriving DecidableEq, Repr

/-- How a call of an engine method ends: it returns its `([]byte, error)` pair,
or it panics on a nil dereference. -/
inductive Return where
  | ret (out : Option Bytes) (err : Option GoError)
  | panic
deriving DecidableEq, Repr

/-- A finished call: the external calls made, in order, and how it ended. -/
structure Run (δ : Type) where
  calls : List (Event δ)
  result : Return
deriving DecidableEq, Repr

/-- The method `(*ImageHeader).Width`; `none` is the nil dereference. -/
def ImageHeader.Width (h : Option ImageHeader) : Option Int :=
  h.map (fun v => v.width)

/-- The method `(*ImageHeader).Height`; `none` is the nil dereference. -/
def ImageHeader.Height (h : Option ImageHeader) : Option Int :=
  h.map (fun v => v.height)

/-- The options of a `Transform` event. -/
def Event.transformOpts {δ : Type} : Event δ → Option ImageOptions
  | .Transform _ _ opts _ => some opts
  | _ => none

/-- The option records handed to the native transform during a run. -/
def Run.nativeOpts {δ : Type} (r : Run δ) : List ImageOptions :=
  r.calls.filterMap Event.transformOpts

/-- The function `NewLilliputEngine`. -/
def NewLilliputEngine (maxBufferSize : Int) : LilliputEngine :=
  if maxBufferSize > 0 then
    { MaxBufferSize := maxBufferSize }
  else
    { MaxBufferSize := 8192 }

/-- The method `transform`.  The error of `decoder.Header()` is assigned and never
read; the header pointer is dereferenced only on an axis whose requested value
is 0.  Deferred closes run on every exit after their `defer` statement. -/
def transform {δ : Type} (X : Extern δ) (e : LilliputEngine) (img : ImageFile)
    (options : ImageOptions) : Run δ :=
  match X.NewDecoder img.Source with
  | (_, some err) => ⟨[.NewDecoder img.Source], .ret none (some (.withStack err))⟩
  | (none, none) => ⟨[.NewDecoder img.Source], .panic⟩
  | (some decoder, none) =>
    let header := (X.Header decoder).1
    let width : Option Int :=
      if options.Width = 0 then ImageHeader.Width header else some options.Width
    match width with
    | none => ⟨[.NewDecoder img.Source, .Header decoder, .DecoderClose decoder], .panic⟩
    | some w =>
      let options : ImageOptions := { options with Width := w }
      let height : Option Int :=
        if options.Height = 0 then ImageHeader.Height header else some options.Height
      match height with
      | none => ⟨[.NewDecoder img.Source, .Header decoder, .DecoderClose decoder], .panic⟩
      | some h =>
        let options : ImageOptions := { options with Height := h }
        let out := X.Transform e.MaxBufferSize decoder options (50 * 1024 * 1024)
        ⟨[.NewDecoder img.Source, .Header decoder, .NewImageOps e.MaxBufferSize,
          .Transform e.MaxBufferSize decoder options (50 * 1024 * 1024),
          .OpsClose, .DecoderClose decoder], .ret out.1 out.2⟩

/-- Prefixes the external call `img.FilenameExt()` to a run. -/
def Run.afterFilenameExt {δ : Type} (img : ImageFile) (r : Run δ) : Run δ :=
  ⟨.FilenameExt img :: r.calls, r.result⟩

/-- The method `Resize`. -/
def Resize {δ : Type} (X : Extern δ) (e : LilliputEngine) (img : ImageFile)
    (options : Options) : Run δ :=
  let opts : ImageOptions :=
    { FileType := X.FilenameExt img
      Width := options.Width
      Height := options.Height
      ResizeMethod := .ImageOpsResize }
  (transform X e img opts).afterFilenameExt img

/-- The method `Rotate`. -/
def Rotate {δ : Type} (_X : Extern δ) (_e : LilliputEngine) (_img : ImageFile)
    (_options : Options) : Run δ :=
  ⟨[], .ret none (some .MethodNotImplementedError)⟩

/-- The method `Flip`. -/
def Flip {δ : Type} (_X : Extern δ) (_e : LilliputEngine) (_img : ImageFile)
    (_options : Options) : Run δ :=
  ⟨[], .ret none (some .MethodNotImplementedError)⟩

/-- The method `Thumbnail`. -/
def Thumbnail {δ : Type} (X : Extern δ) (e : LilliputEngine) (img : ImageFile)
    (options : Options) : Run δ :=
  let opts : ImageOptions :=
    { FileType := X.FilenameExt img
      Width := options.Width
      Height := options.Height
      ResizeMethod := .ImageOpsFit }
  (transform X e img opts).afterFilenameExt img

/-- The method `Fit`. -/
def Fit {δ : Type} (_X : Extern δ) (_e : LilliputEngine) (_img : ImageFile)
    (_options : Options) : Run δ :=
  ⟨[], .ret none (some .MethodNotImplementedError)⟩

end backend

namespace handlers

/-- Go strings that the handlers slice: a sequence of bytes. -/
abbrev GoString := List UInt8

/-- A non-nil Go error value of the handler layer; `msg` is what `Error()` returns. -/
structure GoErr where
  msg : String
deriving DecidableEq, Repr

/-- A value stored in the gin context (an `interface{}`): a string, or a value of
any other dynamic type (nil included). -/
inductive CtxValue where
  | str (s : String)
  | other
deriving DecidableEq, Repr

/-- The value behind the `*image.ImageFile` returned by an upload, as far as the
handler reads it. -/
structure File where
  Filename : String
  Path : String
  URL : String
deriving DecidableEq, Repr

/-- One call made by a handler outside of `handlers.go`.  `Error recv` is a call of
the method `Error()` on the error value `recv` (`none` is nil). -/
inductive Call where
  | Bind
  | Upload
  | Error (recv : Option GoErr)
  | Delete (path : GoString)
  | DeleteChild (key : String)
deriving DecidableEq, Repr

/-- What a handler writes to the client. -/
inductive Response where
  | String (code : Nat) (body : String)
  | JSON (code : Nat) (fields : List (String × String))
  | Handle (err : GoErr)
deriving DecidableEq, Repr

/-- A finished handler call: the external calls made, in order, the response
written (if any), and whether it ended in a runtime panic. -/
structure HandlerRun where
  calls : List Call
  response : Option Response
  panicked : Bool
deriving DecidableEq, Repr

/-- The slice expression `s[low:]` on a string; `none` is the out-of-range panic. -/
def sliceFrom (s : GoString) (low : Nat) : Option GoString :=
  if low ≤ s.length then some (s.drop low) else none

/-- The type assertion `v.(string)`; `none` is the failed-assertion panic. -/
def CtxValue.assertString : CtxValue → Option String
  | .str s => some s
  | .other => none

/-- The status constants of `net/http` used by the handlers. -/
def StatusOK : Nat := 200

/-- The constant `http.StatusBadRequest`. -/
def StatusBadRequest : Nat := 400

/-- The constant `http.StatusUnprocessableEntity`. -/
def StatusUnprocessableEntity : Nat := 422

/-- What the `Upload` handler gets from outside: the result of `binding.Bind`
(nil when binding succeeds), what `Error()` yields on that nil result (`none`
when the call panics), and the result pair of `multipartPayload.Upload`. -/
structure UploadExtern where
  Bind : Option GoErr
  nilBindError : Option String
  Upload : Option File × Option GoErr

/-- The method `Error()` on the result of `binding.Bind`; `none` is a panic. -/
def UploadExtern.bindError (X : UploadExtern) : Option GoErr → Option String
  | some errs => some errs.msg
  | none => X.nilBindError

/-- The handler `Upload`.  In the branch `err != nil` the source renders
`errs.Error()`, where `errs` is the binding result, nil at that point. -/
def Upload (X : UploadExtern) : HandlerRun :=
  let errs := X.Bind
  match errs with
  | some e => ⟨[.Bind, .Error (some e)], some (.String StatusBadRequest e.msg), false⟩
  | none =>
    match X.Upload with
    | (_, some _err) =>
      match X.bindError errs with
      | some body =>
        ⟨[.Bind, .Upload, .Error errs], some (.String StatusBadRequest body), false⟩
      | none => ⟨[.Bind, .Upload, .Error errs], none, true⟩
    | (some file, none) =>
      ⟨[.Bind, .Upload],
        some (.JSON StatusOK
          [("filename", file.Filename), ("path", file.Path), ("url", file.URL)]), false⟩
    | (none, none) => ⟨[.Bind, .Upload], none, true⟩

/-- The functions of package `application` called by the `Delete` handler; the
result is the returned error, nil on success. -/
structure Application where
  Delete : GoString → Option GoErr
  DeleteChild : String → Option GoErr

/-- The handler `Delete`.  `path` is `c.Param("parameters")`; `key` is the pair
returned by `c.Get("key")`, `none` when `exists` is false. -/
def Delete (A : Application) (path : GoString) (key : Option CtxValue) : HandlerRun :=
  if path = [] ∧ key = none then
    ⟨[], some (.String StatusUnprocessableEntity "no path or key provided"), false⟩
  else
    match key with
    | none =>
      match sliceFrom path 1 with
      | none => ⟨[], none, true⟩
      | some p =>
        match A.Delete p with
        | some err => ⟨[.Delete p], some (.Handle err), false⟩
        | none => ⟨[.Delete p], some (.String StatusOK "Ok"), false⟩
    | some v =>
      match v.assertString with
      | none => ⟨[], none, true⟩
      | some k =>
        match A.DeleteChild k with
        | some err => ⟨[.DeleteChild k], some (.Handle err), false⟩
        | none => ⟨[.DeleteChild k], some (.String StatusOK "Ok"), false⟩

end handlers

/-! ## Concrete inputs -/

namespace backend

/-- A lilliput stand-in whose decoder always opens (decoder handle 0), whose header
reports 800x600, and whose native transform returns one byte. -/
def jpeg800x600 : Extern Nat where
  FilenameExt := fun _ => ".jpg"
  NewDecoder := fun _ => (some 0, none)
  Header := fun _ => (some ⟨800, 600⟩, none)
  Transform := fun _ _ _ _ => (some [1], none)

/-- A lilliput stand-in whose decoder opens and whose header read fails with
`invalid image` and a nil header; the native transform returns one byte. -/
def badHeader : Extern Nat where
  FilenameExt := fun _ => ".jpg"
  NewDecoder := fun _ => (some 0, none)
  Header := fun _ => (none, some (.lib "invalid image"))
  Transform := fun _ _ _ _ => (some [1], none)

/-- A lilliput stand-in whose decoder cannot open the source. -/
def badSource : Extern Nat where
  FilenameExt := fun _ => ".jpg"
  NewDecoder := fun _ => (none, some (.lib "unsupported file type"))
  Header := fun _ => (none, some (.lib "invalid image"))
  Transform := fun _ _ _ _ => (none, some (.lib "unreachable"))

/-- An image file with three source bytes. -/
def photo : ImageFile := ⟨[255, 216, 255], "photo.jpg"⟩

/-- An engine with the default buffer size. -/
def engine : LilliputEngine := NewLilliputEngine 0

end backend

namespace handlers

/-- An application whose deletions succeed. -/
def okApp : Application where
  Delete := fun _ => none
  DeleteChild := fun _ => none

/-- A request whose binding succeeds and whose upload fails with `disk full`;
`Error()` on the nil binding result panics (a nil `error` interface). -/
def failedUpload : UploadExtern where
  Bind := none
  nilBindError := none
  Upload := (none, some ⟨"disk full"⟩)

/-- The same request where `Error()` on the nil binding result yields the empty
string (a nil slice of binding errors). -/
def failedUploadEmpty : UploadExtern where
  Bind := none
  nilBindError := some ""
  Upload := (none, some ⟨"disk full"⟩)

end handlers

/-! ## The lilliput engine -/

namespace backend

/-- What `transform` does once the decoder has opened and the header has been read:
one native call, with each zero axis replaced by the header's value. -/
theorem transform_opened {δ : Type} (X : Extern δ) (e : LilliputEngine) (img : ImageFile)
    (opts : ImageOptions) (d : δ) (W H : Int) (herr : Option GoError)
    (hd : X.NewDecoder img.Source = (some d, none))
    (hh : X.Header d = (some ⟨W, H⟩, herr)) :
    (transform X e img opts).nativeOpts =
      [⟨opts.FileType, if opts.Width = 0 then W else opts.Width,
        if opts.Height = 0 then H else opts.Height, opts.ResizeMethod⟩] := by
  simp only [transform, hd, hh, ImageHeader.Width, ImageHeader.Height, Option.map]
  by_cases hw : opts.Width = 0 <;> by_cases hht : opts.Height = 0 <;>
    simp [hw, hht, Run.nativeOpts, Event.transformOpts]

/-- The external call `img.FilenameExt()` is not a native transform. -/
theorem nativeOpts_afterFilenameExt {δ : Type} (img : ImageFile) (r : Run δ) :
    (r.afterFilenameExt img).nativeOpts = r.nativeOpts := by
  simp [Run.afterFilenameExt, Run.nativeOpts, Event.transformOpts]

/-- Every option record that `transform` hands to the native transform keeps the
file type and the resize method it was given, and keeps each non-zero axis. -/
theorem transform_nativeOpts_mem {δ : Type} (X : Extern δ) (e : LilliputEngine)
    (img : ImageFile) (opts p : ImageOptions)
    (hp : p ∈ (transform X e img opts).nativeOpts) :
    p.FileType = opts.FileType ∧ p.ResizeMethod = opts.ResizeMethod ∧
      (opts.Width ≠ 0 → p.Width = opts.Width) ∧
      (opts.Height ≠ 0 → p.Height = opts.Height) := by
  simp only [transform] at hp
  rcases hd : X.NewDecoder img.Source with ⟨_ | d, _ | err⟩ <;>
    simp only [hd] at hp <;> try (simp [Run.nativeOpts, Event.transformOpts] at hp)
  rcases hh : (X.Header d).1 with _ | ⟨W, H⟩ <;>
    by_cases hw : opts.Width = 0 <;> by_cases hht : opts.Height = 0 <;>
    simp [hh, hw, hht, ImageHeader.Width, ImageHeader.Height, Run.nativeOpts,
      Event.transformOpts] at hp <;> subst hp <;> simp [hw, hht]

/-- The resize method given to `transform` does not influence the file type, width
and height of what it hands to the native transform. -/
theorem transform_nativeOpts_method {δ : Type} (X : Extern δ) (e : LilliputEngine)
    (img : ImageFile) (ft : String) (w h : Int) (m m2 : ImageOpsSizeMethod) :
    (transform X e img ⟨ft, w, h, m⟩).nativeOpts.map (fun p => (p.FileType, p.Width, p.Height)) =
      (transform X e img ⟨ft, w, h, m2⟩).nativeOpts.map
        (fun p => (p.FileType, p.Width, p.Height)) := by
  simp only [transform]
  rcases hd : X.NewDecoder img.Source with ⟨_ | d, _ | err⟩ <;>
    (simp only [hd]; try (simp [Run.nativeOpts, Event.transformOpts]))
  rcases hh : (X.Header d).1 with _ | ⟨W, H⟩ <;>
    by_cases hw : w = 0 <;> by_cases hht : h = 0 <;>
    simp [hw, hht, ImageHeader.Width, ImageHeader.Height, Run.nativeOpts,
      Event.transformOpts]

/-- C1: when the decoder opens and the header reports the intrinsic size (W, H),
Resize and Thumbnail hand exactly one option record to the native transform,
whose Width is W if the requested width is 0 and the requested width otherwise,
and whose Height is H if the requested height is 0 and the requested height
otherwise; a request of (0, 0) is handed over as (W, H). -/
theorem resize_thumbnail_axis_fallback {δ : Type} (X : Extern δ) (e : LilliputEngine)
    (img : ImageFile) (o : Options) (d : δ) (W H : Int)
    (hd : X.NewDecoder img.Source = (some d, none))
    (hh : X.Header d = (some ⟨W, H⟩, none)) :
    (Resize X e img o).nativeOpts =
        [⟨X.FilenameExt img, if o.Width = 0 then W else o.Width,
          if o.Height = 0 then H else o.Height, .ImageOpsResize⟩] ∧
      (Thumbnail X e img o).nativeOpts =
        [⟨X.FilenameExt img, if o.Width = 0 then W else o.Width,
          if o.Height = 0 then H else o.Height, .ImageOpsFit⟩] ∧
      (Resize X e img ⟨0, 0⟩).nativeOpts = [⟨X.FilenameExt img, W, H, .ImageOpsResize⟩] ∧
      (Thumbnail X e img ⟨0, 0⟩).nativeOpts = [⟨X.FilenameExt img, W, H, .ImageOpsFit⟩] := by
  refine ⟨?_, ?_, ?_, ?_⟩ <;>
    simp only [Resize, Thumbnail, nativeOpts_afterFilenameExt,
      transform_opened X e img _ d W H none hd hh] <;> simp

/-- C1 at the spec's scenario: source 800x600, request width 400 and height 0,
Resize asks the native transform for 400x600. -/
theorem resize_thumbnail_axis_fallback_witness :
    jpeg800x600.NewDecoder photo.Source = (some 0, none) ∧
      jpeg800x600.Header 0 = (some ⟨800, 600⟩, none) ∧
      (Resize jpeg800x600 engine photo ⟨400, 0⟩).nativeOpts =
        [⟨".jpg", 400, 600, .ImageOpsResize⟩] :=
  ⟨rfl, rfl,
    (resize_thumbnail_axis_fallback jpeg800x600 engine photo ⟨400, 0⟩ 0 800 600 rfl rfl).1⟩

/-- C2: at source 800x600 and a Resize request of width 400 and height 0 the
dimensions handed to the native transform are 400x600, for which
width * 600 = height * 800 fails: the omitted axis falls back to the intrinsic
value and the aspect ratio announced by the comment on Resize is not kept. -/
theorem resize_one_zero_axis_not_proportional :
    (Resize jpeg800x600 engine photo ⟨400, 0⟩).nativeOpts =
        [⟨".jpg", 400, 600, .ImageOpsResize⟩] ∧
      ¬ (∀ p ∈ (Resize jpeg800x600 engine photo ⟨400, 0⟩).nativeOpts,
          p.Width * 600 = p.Height * 800) := by
  have h : (Resize jpeg800x600 engine photo ⟨400, 0⟩).nativeOpts =
      [⟨".jpg", 400, 600, .ImageOpsResize⟩] := by decide
  refine ⟨h, ?_⟩
  rw [h]
  simp

/-- C3: with a decoder that opens and a header read that fails, a Resize or
Thumbnail request of 100x100 discards the header error, invokes the native
transform and returns its bytes with a nil error; a request with a zero axis
dereferences the nil header and panics instead of returning the error. -/
theorem header_error_discarded :
    badHeader.Header 0 = (none, some (.lib "invalid image")) ∧
      Resize badHeader engine photo ⟨100, 100⟩ =
        ⟨[.FilenameExt photo, .NewDecoder photo.Source, .Header 0, .NewImageOps 8192,
          .Transform 8192 0 ⟨".jpg", 100, 100, .ImageOpsResize⟩ 52428800,
          .OpsClose, .DecoderClose 0], .ret (some [1]) none⟩ ∧
      Thumbnail badHeader engine photo ⟨100, 100⟩ =
        ⟨[.FilenameExt photo, .NewDecoder photo.Source, .Header 0, .NewImageOps 8192,
          .Transform 8192 0 ⟨".jpg", 100, 100, .ImageOpsFit⟩ 52428800,
          .OpsClose, .DecoderClose 0], .ret (some [1]) none⟩ ∧
      Resize badHeader engine photo ⟨0, 100⟩ =
        ⟨[.FilenameExt photo, .NewDecoder photo.Source, .Header 0, .DecoderClose 0],
          .panic⟩ := by
  refine ⟨rfl, ?_, ?_, ?_⟩ <;> decide

/-- C4: when the decoder cannot open the source, Resize and Thumbnail make no
external call after NewDecoder (no header read, no native transform) and return
nil bytes with the decoder's error wrapped by errors.WithStack, whose cause is
that error, whatever the request and the engine's buffer size. -/
theorem decoder_error_returned {δ : Type} (X : Extern δ) (e : LilliputEngine)
    (img : ImageFile) (o : Options) (err : GoError)
    (hd : (X.NewDecoder img.Source).2 = some err) :
    Resize X e img o =
        ⟨[.FilenameExt img, .NewDecoder img.Source], .ret none (some (.withStack err))⟩ ∧
      Thumbnail X e img o =
        ⟨[.FilenameExt img, .NewDecoder img.Source], .ret none (some (.withStack err))⟩ ∧
      (GoError.withStack err).Unwrap = some err ∧
      (Resize X e img o).nativeOpts = [] ∧ (Thumbnail X e img o).nativeOpts = [] := by
  rcases hx : X.NewDecoder img.Source with ⟨v, er⟩
  rw [hx] at hd
  simp only at hd
  subst hd
  simp [Resize, Thumbnail, transform, hx, Run.afterFilenameExt, GoError.Unwrap,
    Run.nativeOpts, Event.transformOpts]

/-- C4 at a source the decoder rejects. -/
theorem decoder_error_returned_witness :
    (badSource.NewDecoder photo.Source).2 = some (.lib "unsupported file type") ∧
      Resize badSource engine photo ⟨400, 0⟩ =
        ⟨[.FilenameExt photo, .NewDecoder photo.Source],
          .ret none (some (.withStack (.lib "unsupported file type")))⟩ :=
  ⟨rfl, (decoder_error_returned badSource engine photo ⟨400, 0⟩ _ rfl).1⟩

/-- C5: Rotate, Flip and Fit make no external call and return nil bytes with
MethodNotImplementedError, for every engine, image and options. -/
theorem rotate_flip_fit_not_implemented {δ : Type} (X : Extern δ) (e : LilliputEngine)
    (img : ImageFile) (o : Options) :
    Rotate X e img o = ⟨[], .ret none (some .MethodNotImplementedError)⟩ ∧
      Flip X e img o = ⟨[], .ret none (some .MethodNotImplementedError)⟩ ∧
      Fit X e img o = ⟨[], .ret none (some .MethodNotImplementedError)⟩ :=
  ⟨rfl, rfl, rfl⟩

/-- C6: NewLilliputEngine n has MaxBufferSize n when n > 0 and 8192 when n <= 0, so
the MaxBufferSize of a constructed engine is strictly positive. -/
theorem new_engine_buffer_size (n : Int) :
    (0 < n → (NewLilliputEngine n).MaxBufferSize = n) ∧
      (n ≤ 0 → (NewLilliputEngine n).MaxBufferSize = 8192) ∧
      0 < (NewLilliputEngine n).MaxBufferSize := by
  unfold NewLilliputEngine
  by_cases h : n > 0
  · simp [h]
  · simp [h]

/-- C6 at a positive and at a negative size. -/
theorem new_engine_buffer_size_witness :
    (NewLilliputEngine 4096).MaxBufferSize = 4096 ∧
      (NewLilliputEngine (-1)).MaxBufferSize = 8192 :=
  ⟨(new_engine_buffer_size 4096).1 (by decide),
    (new_engine_buffer_size (-1)).2.1 (by decide)⟩

/-- C7: Thumbnail hands its own option record to transform, built with
ImageOpsFit where Resize builds one with ImageOpsResize; every record that
reaches the native transform carries ImageOpsFit from Thumbnail (so none carries
the ImageOpsResize of Resize) and ImageOpsResize from Resize, and the records of
the two agree on FileType, Width and Height. -/
theorem thumbnail_fit_resize_resize {δ : Type} (X : Extern δ) (e : LilliputEngine)
    (img : ImageFile) (o : Options) :
    Thumbnail X e img o =
        (transform X e img
          ⟨X.FilenameExt img, o.Width, o.Height, .ImageOpsFit⟩).afterFilenameExt img ∧
      Resize X e img o =
        (transform X e img
          ⟨X.FilenameExt img, o.Width, o.Height, .ImageOpsResize⟩).afterFilenameExt img ∧
      ImageOpsSizeMethod.ImageOpsFit ≠ ImageOpsSizeMethod.ImageOpsResize ∧
      (∀ p ∈ (Thumbnail X e img o).nativeOpts, p.ResizeMethod = .ImageOpsFit) ∧
      (∀ p ∈ (Resize X e img o).nativeOpts, p.ResizeMethod = .ImageOpsResize) ∧
      (Thumbnail X e img o).nativeOpts.map (fun p => (p.FileType, p.Width, p.Height)) =
        (Resize X e img o).nativeOpts.map (fun p => (p.FileType, p.Width, p.Height)) := by
  refine ⟨rfl, rfl, by decide, ?_, ?_, ?_⟩
  · intro p hp
    rw [Thumbnail, nativeOpts_afterFilenameExt] at hp
    exact (transform_nativeOpts_mem X e img _ p hp).2.1
  · intro p hp
    rw [Resize, nativeOpts_afterFilenameExt] at hp
    exact (transform_nativeOpts_mem X e img _ p hp).2.1
  · rw [Thumbnail, Resize, nativeOpts_afterFilenameExt, nativeOpts_afterFilenameExt]
    exact transform_nativeOpts_method X e img _ _ _ _ _

/-- C7 at source 800x600 and a request of 100x100: Thumbnail reaches the native
transform, and with ImageOpsFit. -/
theorem thumbnail_fit_resize_resize_witness :
    (⟨".jpg", 100, 100, .ImageOpsFit⟩ : ImageOptions) ∈
        (Thumbnail jpeg800x600 engine photo ⟨100, 100⟩).nativeOpts ∧
      (⟨".jpg", 100, 100, .ImageOpsFit⟩ : ImageOptions).ResizeMethod = .ImageOpsFit :=
  ⟨by decide,
    (thumbnail_fit_resize_resize jpeg800x600 engine photo ⟨100, 100⟩).2.2.2.1 _ (by decide)⟩

/-- C8: Resize and Thumbnail each read img.FilenameExt() and give it to transform as
the FileType of their record; every option record that Resize or Thumbnail hands to
the native transform has the image's FilenameExt as FileType; transform hands over
the FileType it was given, whatever it does to Width and Height; and when the
decoder opens and the header is read, Resize, Thumbnail and transform each hand
over exactly one record, with that file type. -/
theorem file_type_is_filename_ext {δ : Type} (X : Extern δ) (e : LilliputEngine)
    (img : ImageFile) (o : Options) :
    Resize X e img o =
        (transform X e img
          ⟨X.FilenameExt img, o.Width, o.Height, .ImageOpsResize⟩).afterFilenameExt img ∧
      Thumbnail X e img o =
        (transform X e img
          ⟨X.FilenameExt img, o.Width, o.Height, .ImageOpsFit⟩).afterFilenameExt img ∧
      (∀ p ∈ (Resize X e img o).nativeOpts, p.FileType = X.FilenameExt img) ∧
      (∀ p ∈ (Thumbnail X e img o).nativeOpts, p.FileType = X.FilenameExt img) ∧
      (∀ opts : ImageOptions, ∀ p ∈ (transform X e img opts).nativeOpts,
        p.FileType = opts.FileType) ∧
      (∀ (d : δ) (W H : Int) (herr : Option GoError),
        X.NewDecoder img.Source = (some d, none) → X.Header d = (some ⟨W, H⟩, herr) →
          (Resize X e img o).nativeOpts.map (fun p => p.FileType) = [X.FilenameExt img] ∧
          (Thumbnail X e img o).nativeOpts.map (fun p => p.FileType) =
            [X.FilenameExt img] ∧
          ∀ opts : ImageOptions,
            (transform X e img opts).nativeOpts.map (fun p => p.FileType) =
              [opts.FileType]) := by
  refine ⟨rfl, rfl, ?_, ?_, ?_, ?_⟩
  · intro p hp
    rw [Resize, nativeOpts_afterFilenameExt] at hp
    exact (transform_nativeOpts_mem X e img _ p hp).1
  · intro p hp
    rw [Thumbnail, nativeOpts_afterFilenameExt] at hp
    exact (transform_nativeOpts_mem X e img _ p hp).1
  · intro opts p hp
    exact (transform_nativeOpts_mem X e img opts p hp).1
  · intro d W H herr hd hh
    refine ⟨?_, ?_, ?_⟩
    · rw [Resize, nativeOpts_afterFilenameExt, transform_opened X e img _ d W H herr hd hh]
      rfl
    · rw [Thumbnail, nativeOpts_afterFilenameExt,
        transform_opened X e img _ d W H herr hd hh]
      rfl
    · intro opts
      rw [transform_opened X e img opts d W H herr hd hh]
      rfl

/-- C8 at source 800x600: Thumbnail at 100x100 and Resize at (0, 0) each hand one
record to the native transform, with the file type of the image; the record of
Resize has both axes rewritten and its file type unchanged. -/
theorem file_type_is_filename_ext_witness :
    jpeg800x600.NewDecoder photo.Source = (some 0, none) ∧
      jpeg800x600.Header 0 = (some ⟨800, 600⟩, none) ∧
      (Thumbnail jpeg800x600 engine photo ⟨100, 100⟩).nativeOpts.map
          (fun p => p.FileType) = [jpeg800x600.FilenameExt photo] ∧
      (⟨".jpg", 100, 100, .ImageOpsFit⟩ : ImageOptions) ∈
        (Thumbnail jpeg800x600 engine photo ⟨100, 100⟩).nativeOpts ∧
      (Resize jpeg800x600 engine photo ⟨0, 0⟩).nativeOpts.map
          (fun p => p.FileType) = [jpeg800x600.FilenameExt photo] ∧
      (⟨".jpg", 800, 600, .ImageOpsResize⟩ : ImageOptions) ∈
        (Resize jpeg800x600 engine photo ⟨0, 0⟩).nativeOpts ∧
      (⟨".jpg", 800, 600, .ImageOpsResize⟩ : ImageOptions).FileType =
        jpeg800x600.FilenameExt photo :=
  ⟨rfl, rfl,
    ((file_type_is_filename_ext jpeg800x600 engine photo ⟨100, 100⟩).2.2.2.2.2
      0 800 600 none rfl rfl).2.1,
    by decide,
    ((file_type_is_filename_ext jpeg800x600 engine photo ⟨0, 0⟩).2.2.2.2.2
      0 800 600 none rfl rfl).1,
    by decide,
    (file_type_is_filename_ext jpeg800x600 engine photo ⟨0, 0⟩).2.2.1 _ (by decide)⟩

end backend

/-! ## The handlers -/

namespace handlers

/-- When binding succeeds and the upload fails, what `Upload` does is fixed by
`Error()` of the nil binding result alone; the upload error is not read. -/
theorem upload_failure_run (X : UploadExtern) (file : Option File) (err : GoErr)
    (hb : X.Bind = none) (hu : X.Upload = (file, some err)) :
    (Upload X).calls = [.Bind, .Upload, .Error none] ∧
      (Upload X).response = X.nilBindError.map (Response.String StatusBadRequest) := by
  unfold Upload
  rw [hb, hu]
  cases h : X.nilBindError <;> simp [UploadExtern.bindError, h]

/-- The upload-failure run at a request whose upload fails with "disk full". -/
theorem upload_failure_run_witness :
    failedUploadEmpty.Bind = none ∧
      failedUploadEmpty.Upload = (none, some ⟨"disk full"⟩) ∧
      (Upload failedUploadEmpty).calls = [.Bind, .Upload, .Error none] :=
  ⟨rfl, rfl, (upload_failure_run failedUploadEmpty none ⟨"disk full"⟩ rfl rfl).1⟩

/-- C9, as amended: with an empty path and no key the Delete handler answers 422
"no path or key provided" and calls nothing; with a key set to a string it calls
DeleteChild(key) and nothing else; with a key set to a value of any other
dynamic type the assertion `key.(string)` panics before any call, whatever the
path; with no key and a non-empty path it calls Delete(path[1:]) and nothing
else, where path[1:] is in bounds and is the path without its first byte. -/
theorem delete_dispatch (A : Application) :
    Delete A [] none =
        ⟨[], some (.String StatusUnprocessableEntity "no path or key provided"), false⟩ ∧
      StatusUnprocessableEntity = 422 ∧
      (∀ (path : GoString) (k : String),
        (Delete A path (some (.str k))).calls = [.DeleteChild k] ∧
          (Delete A path (some (.str k))).panicked = false) ∧
      (∀ path : GoString, Delete A path (some .other) = ⟨[], none, true⟩) ∧
      (∀ (b : UInt8) (rest : GoString),
        sliceFrom (b :: rest) 1 = some rest ∧
          (Delete A (b :: rest) none).calls = [.Delete rest] ∧
          (Delete A (b :: rest) none).panicked = false) := by
  refine ⟨by simp [Delete], rfl, ?_, ?_, ?_⟩
  · intro path k
    cases h : A.DeleteChild k <;> simp [Delete, CtxValue.assertString, h]
  · intro path
    simp [Delete, CtxValue.assertString]
  · intro b rest
    have hs : sliceFrom (b :: rest) 1 = some rest := by simp [sliceFrom]
    cases h : A.Delete rest <;> simp [Delete, hs, h]

/-- C9 as stated fails at the path "/a" with the key set to a non-string value: the
request is not the one without path and key, yet the handler calls neither
Delete nor DeleteChild (no DeleteChild(key) although a key is set) and panics
at `key.(string)`. -/
theorem delete_dispatch_non_string_key :
    ¬ (([47, 97] : GoString) = [] ∧ (some CtxValue.other) = none) ∧
      (Delete okApp [47, 97] (some .other)).calls = [] ∧
      (Delete okApp [47, 97] (some .other)).panicked = true ∧
      ¬ (∃ k, (Delete okApp [47, 97] (some .other)).calls = [.DeleteChild k]) ∧
      ¬ (∃ p, (Delete okApp [47, 97] (some .other)).calls = [.Delete p]) := by
  have h : Delete okApp [47, 97] (some .other) = ⟨[], none, true⟩ := by
    simp [Delete, CtxValue.assertString]
  rw [h]
  simp

/-- C10: when binding succeeds and the upload fails with "disk full", the Upload
handler calls Error() on the nil binding result, not on the upload error: it
panics when that call panics, and answers 400 with an empty body when that call
yields the empty string; in neither case is the body "disk full". -/
theorem upload_error_message_lost :
    failedUpload.Bind = none ∧ failedUpload.Upload = (none, some ⟨"disk full"⟩) ∧
      Upload failedUpload = ⟨[.Bind, .Upload, .Error none], none, true⟩ ∧
      Upload failedUploadEmpty =
        ⟨[.Bind, .Upload, .Error none], some (.String 400 ""), false⟩ ∧
      (Upload failedUpload).response ≠ some (.String 400 "disk full") ∧
      (Upload failedUploadEmpty).response ≠ some (.String 400 "disk full") := by
  refine ⟨rfl, rfl, ?_, ?_, ?_, ?_⟩ <;> decide

end handlers
